import Mathlib

/-!
Shallow embedding of the tableau simplex implementation (src/src/lib.rs)
and verification of the specification's claims about it.

Modelling conventions:
* `f64` is modelled by `ℚ` (exact arithmetic).  The Rust code compares
  floats by sign bit: `is_sign_positive` holds of `x > 0` and `+0.0`,
  `is_sign_negative` of `x < 0` and `-0.0`.  Over `ℚ`, which has a single
  zero, `is_sign_positive x` is modelled as `0 ≤ x` and `is_sign_negative x`
  as `x < 0`, matching the spec's stated convention that zero counts as
  positive and never as negative.
* `ndarray::Array2<f64>` is modelled by its entry function `ℕ → ℕ → ℚ`
  together with explicit row/column counts carried in the `Table` structure.
* Rust scan loops with an early `break` translate to `List.find?` over
  `List.range`; `Vec` pushes inside a `for` loop translate to `List.map`
  over the corresponding range.
* Panics (`unwrap` on `Err`, out-of-bounds indexing) are modelled by
  `Option` where a claim depends on them; rational division by zero yields
  `0` in Lean where IEEE division yields `±inf`/NaN — noted wherever it
  matters.
* The unbounded loops of `optimise` are modelled with explicit fuel;
  exhausting the fuel returns `none` (the Rust code would still be
  looping), which is distinct from every terminating outcome.
-/

inductive SimplexError where
  | UnableToCalculateError
  | UnlimitedError
  | NoSolutionsError
  | InvalidDataError
deriving DecidableEq, Repr

/-- Rust `f64::is_sign_positive`, restricted to the rationals: zero counts
as positive. -/
def isSignPositive (x : ℚ) : Bool := decide (0 ≤ x)

/-- Rust `f64::is_sign_negative`, restricted to the rationals: zero does
not count as negative. -/
def isSignNegative (x : ℚ) : Bool := decide (x < 0)

/-- The `Table` struct: the augmented matrix (entry function plus explicit
dimensions) and the two label vectors.  `base_var` holds one label per row,
`supp_var` one label per column, exactly as printed by the `Display`
implementation. -/
structure Table where
  rows : ℕ
  cols : ℕ
  mat : ℕ → ℕ → ℚ
  base_var : List String
  supp_var : List String

/-- Constructor `Table::new`.  The Rust code discards the `Result` of
`push_row`, so when `func_coeff.len() != n` the objective row is silently
not appended; `push_column(...).unwrap()` panics (modelled by `none`) when
the zero-padded right-hand-side vector is longer than the row count.  No
input validation of any kind is performed and no error value is ever
produced: the Rust signature returns `Table`, not `Result`. -/
def Table.new (m n : ℕ) (constr_coeff : ℕ → ℕ → ℚ) (constr_val : List ℚ)
    (func_coeff : List ℚ) (minimisation_task : Bool) : Option Table :=
  let func_coeff := if minimisation_task then func_coeff.map (fun x => -x) else func_coeff
  let rows1 := if func_coeff.length = n then m + 1 else m
  let mat1 : ℕ → ℕ → ℚ := fun i j =>
    if func_coeff.length = n ∧ i = m then func_coeff.getD j 0 else constr_coeff i j
  let constr_val := constr_val ++ List.replicate (rows1 - constr_val.length) 0
  if constr_val.length = rows1 then
    some { rows := rows1
           cols := n + 1
           mat := fun i j => if j = n then constr_val.getD i 0 else mat1 i j
           supp_var := ((List.range' 1 n).map (fun i => toString i)) ++ ["S"]
           base_var := ((List.range (rows1 - 1)).map (fun i => toString (i + (n + 1)))) ++ ["F"] }
  else none

/-- Scan of `check_optimised`: the objective row, free-term column
excluded, searched for a sign-positive coefficient; optimised iff none. -/
def Table.check_optimised (t : Table) : Bool :=
  ((List.range (t.cols - 1)).find? (fun j => isSignPositive (t.mat (t.rows - 1) j))).isNone

/-- Scan of `find_in_free_column`: first constraint row (objective row
excluded) whose free term is sign-negative. -/
def Table.find_in_free_column (t : Table) : Option ℕ :=
  (List.range (t.rows - 1)).find? (fun i => isSignNegative (t.mat i (t.cols - 1)))

/-- The quantity `relation` computed inside `find_pivot_row`: free term of
the row divided by the row's pivot-column entry.  There is no zero guard in
the source; in this model division by zero yields `0` (IEEE would give
`±inf`/NaN). -/
def Table.relation (t : Table) (i column : ℕ) : ℚ :=
  t.mat i (t.cols - 1) / t.mat i column

/-- Ratio test `find_pivot_row`: fold over constraint rows keeping the
first row attaining the strictly smallest sign-positive relation, exactly
mirroring `(min.is_none() || relation < min.unwrap()) &&
relation.is_sign_positive()`. -/
def Table.find_pivot_row (t : Table) (column : ℕ) : Option ℕ :=
  ((List.range (t.rows - 1)).foldl
    (fun acc i =>
      let r := t.relation i column
      match acc with
      | (none, _) => if isSignPositive r then (some r, some i) else acc
      | (some m, _) => if decide (r < m) && isSignPositive r then (some r, some i) else acc)
    ((none : Option ℚ), (none : Option ℕ))).2

/-- Column scan of `find_pivot`: the whole objective row, free-term column
included (the loop has no bound guard, unlike `check_optimised`), searched
for the first sign-positive coefficient. -/
def Table.find_pivot_column (t : Table) : Option ℕ :=
  (List.range t.cols).find? (fun j => isSignPositive (t.mat (t.rows - 1) j))

/-- Positivity confirmation of `find_pivot`: `for i in self.table.column(j)`
iterates over every row of column `j`, the objective row included. -/
def Table.has_positive_in_column (t : Table) (j : ℕ) : Bool :=
  ((List.range t.rows).find? (fun i => isSignPositive (t.mat i j))).isSome

/-- Phase-2 pivot selection `find_pivot`. -/
def Table.find_pivot (t : Table) : Except SimplexError (ℕ × ℕ) :=
  match t.find_pivot_column with
  | none => .error .UnableToCalculateError
  | some j =>
    if t.has_positive_in_column j then
      match t.find_pivot_row j with
      | some i => .ok (i, j)
      | none => .error .UnlimitedError
    else .error .UnlimitedError

/-- The Gauss-Jordan `transform` at pivot `(p, q)` with saved pivot value
`pivot_cpy = mat p q`.  The Rust routine mutates in place in three passes;
each pass below is its simultaneous functional equivalent:
* the rectangle pass writes only cells off row `p` and column `q` and reads
  only `pivot_cpy` and cells on row `p` / column `q`, which it never
  writes, so the in-place double loop equals the simultaneous update;
* `row_mut(p)` then divides all of row `p` (pivot cell included) by
  `pivot_cpy`;
* `column_mut(q)` then divides all of column `q` by `-pivot_cpy`;
* the pivot cell is finally overwritten with `1 / pivot_cpy`. -/
def transform (mat : ℕ → ℕ → ℚ) (p q : ℕ) : ℕ → ℕ → ℚ :=
  let pivot_cpy := mat p q
  let rect : ℕ → ℕ → ℚ := fun i j =>
    if i = p ∨ j = q then mat i j
    else mat i j - mat p j * mat i q / pivot_cpy
  let rowdiv : ℕ → ℕ → ℚ := fun i j => if i = p then rect i j / pivot_cpy else rect i j
  let coldiv : ℕ → ℕ → ℚ := fun i j => if j = q then rowdiv i j / (-pivot_cpy) else rowdiv i j
  fun i j => if i = p ∧ j = q then 1 / pivot_cpy else coldiv i j

/-- The pivot step shared by `make_acceptable` and `iterate`:
`self.transform((i, j))` followed by
`std::mem::swap(&mut self.base_var[j], &mut self.supp_var[i])`.
Note the source swaps `base_var` at the COLUMN index `j` with `supp_var` at
the ROW index `i`.  Rust would panic when `j ≥ base_var.len()` or
`i ≥ supp_var.len()`; `List.set`/`List.getD` are total, and every claim
exercising this step stays in bounds. -/
def Table.pivot_step (t : Table) (i j : ℕ) : Table :=
  { t with mat := transform t.mat i j
           base_var := t.base_var.set j (t.supp_var.getD i "")
           supp_var := t.supp_var.set i (t.base_var.getD j "") }

/-- Phase-1 step `make_acceptable`: first sign-negative coefficient of the
offending row (free-term column excluded) fixes the pivot column, the ratio
test fixes the pivot row, then the pivot step runs. -/
def Table.make_acceptable (t : Table) (negative : ℕ) : Except SimplexError Table :=
  match (List.range (t.cols - 1)).find? (fun j => isSignNegative (t.mat negative j)) with
  | none => .error .NoSolutionsError
  | some j =>
    match t.find_pivot_row j with
    | some i => .ok (t.pivot_step i j)
    | none => .error .UnableToCalculateError

/-- Phase-2 step `iterate`: `find_pivot` then, unconditionally, the pivot
step at whatever cell it returned. -/
def Table.iterate (t : Table) : Except SimplexError Table :=
  match t.find_pivot with
  | .error e => .error e
  | .ok (i, j) => .ok (t.pivot_step i j)

/-- Fuelled phase-1 loop of `optimise`. -/
def Table.phase1 : ℕ → Table → Option (Except SimplexError Table)
  | 0, _ => none
  | fuel + 1, t =>
    match t.find_in_free_column with
    | none => some (.ok t)
    | some negative =>
      match t.make_acceptable negative with
      | .error e => some (.error e)
      | .ok t' => Table.phase1 fuel t'

/-- Fuelled phase-2 loop of `optimise`. -/
def Table.phase2 : ℕ → Table → Option (Except SimplexError Table)
  | 0, _ => none
  | fuel + 1, t =>
    if t.check_optimised then some (.ok t)
    else
      match t.iterate with
      | .error e => some (.error e)
      | .ok t' => Table.phase2 fuel t'

/-- The driver `optimise`: phase 1 to completion, then phase 2. -/
def Table.optimise (fuel : ℕ) (t : Table) : Option (Except SimplexError Table) :=
  match Table.phase1 fuel t with
  | none => none
  | some (.error e) => some (.error e)
  | some (.ok t') => Table.phase2 fuel t'

/-- Helper to build a concrete entry function from row lists (cells outside
the listed area read 0; every scan stays within the declared dimensions). -/
def matOf (rows : List (List ℚ)) : ℕ → ℕ → ℚ := fun i j => (rows.getD i []).getD j 0

/-! Helper lemmas: cellwise characterisation of the pivot transform. -/

theorem transform_cell_pivot (mat : ℕ → ℕ → ℚ) (p q : ℕ) :
    transform mat p q p q = 1 / mat p q := by
  simp [transform]

theorem transform_cell_row (mat : ℕ → ℕ → ℚ) (p q j : ℕ) (hj : j ≠ q) :
    transform mat p q p j = mat p j / mat p q := by
  simp [transform, hj]

theorem transform_cell_col (mat : ℕ → ℕ → ℚ) (p q i : ℕ) (hi : i ≠ p) :
    transform mat p q i q = mat i q / (-(mat p q)) := by
  simp [transform, hi]

theorem transform_cell_rect (mat : ℕ → ℕ → ℚ) (p q i j : ℕ) (hi : i ≠ p) (hj : j ≠ q) :
    transform mat p q i j = mat i j - mat p j * mat i q / mat p q := by
  simp [transform, hi, hj]

/-- C5: for every matrix and pivot cell (p, q) with v = mat p q different
from 0, the transform produces exactly the rectangle rule off row p and
column q (reading only pre-transform values of row p and column q: the
right-hand sides refer solely to the input matrix), division by v on row p,
division by -v on column q, and 1/v at the pivot cell. -/
theorem transform_spec (mat : ℕ → ℕ → ℚ) (p q : ℕ) (_hv : mat p q ≠ 0) :
    (∀ i j, i ≠ p → j ≠ q →
      transform mat p q i j = mat i j - mat p j * mat i q / mat p q) ∧
    (∀ j, j ≠ q → transform mat p q p j = mat p j / mat p q) ∧
    (∀ i, i ≠ p → transform mat p q i q = mat i q / (-(mat p q))) ∧
    transform mat p q p q = 1 / mat p q :=
  ⟨fun i j hi hj => transform_cell_rect mat p q i j hi hj,
   fun j hj => transform_cell_row mat p q j hj,
   fun i hi => transform_cell_col mat p q i hi,
   transform_cell_pivot mat p q⟩

/-- Concrete 2 by 2 matrix used to witness the transform theorems. -/
def c5M : ℕ → ℕ → ℚ := matOf [[2, 3], [5, 7]]

theorem transform_spec_witness :
    c5M 0 0 ≠ 0 ∧ transform c5M 0 0 1 1 = c5M 1 1 - c5M 0 1 * c5M 1 0 / c5M 0 0 :=
  ⟨by decide, (transform_spec c5M 0 0 (by decide)).1 1 1 (by decide) (by decide)⟩

/-- C7: applying the transform twice at the same pivot cell (p, q), when
the pivot value is nonzero, reproduces the original matrix exactly (exact
arithmetic; the transform is its own algebraic inverse at a fixed cell). -/
theorem transform_involutive (mat : ℕ → ℕ → ℚ) (p q : ℕ) (hv : mat p q ≠ 0) :
    ∀ i j, transform (transform mat p q) p q i j = mat i j := by
  intro i j
  have hpq : transform mat p q p q = 1 / mat p q := transform_cell_pivot mat p q
  have hpq0 : transform mat p q p q ≠ 0 := by rw [hpq]; exact one_div_ne_zero hv
  rcases eq_or_ne i p with hi | hi
  · rcases eq_or_ne j q with hj | hj
    · subst hi hj
      rw [transform_cell_pivot, hpq, one_div_one_div]
    · subst hi
      rw [transform_cell_row _ _ _ _ hj, transform_cell_row _ _ _ _ hj, hpq]
      field_simp
  · rcases eq_or_ne j q with hj | hj
    · subst hj
      rw [transform_cell_col _ _ _ _ hi, transform_cell_col _ _ _ _ hi, hpq]
      field_simp
    · rw [transform_cell_rect _ _ _ _ _ hi hj,
        transform_cell_rect _ _ _ _ _ hi hj, hpq,
        transform_cell_row _ _ _ _ hj, transform_cell_col _ _ _ _ hi]
      field_simp
      ring

theorem transform_involutive_witness :
    c5M 0 0 ≠ 0 ∧ transform (transform c5M 0 0) 0 0 1 1 = c5M 1 1 :=
  ⟨by decide, transform_involutive c5M 0 0 (by decide) 1 1⟩

/-! Concrete tables exercising the drivers.  Matrices are written row by
row, the last row being the objective row and the last column the
free-term column. -/

/-- Table produced by `Table::new` from the 1 by 2 constraint matrix
[[-1, 1]], right-hand side [4], objective [-2, 3], maximisation. -/
def c1T : Table :=
  (Table.new 1 2 (matOf [[-1, 1]]) [4] [-2, 3] false).getD ⟨0, 0, matOf [], [], []⟩

/-- C1 (code bug): the pivot at (row 0, column 1) is accompanied by the
swap of `base_var[1]` with `supp_var[0]` — the source indexes the row
labels with the pivot COLUMN and the column labels with the pivot ROW
(`std::mem::swap(&mut self.base_var[j], &mut self.supp_var[i])`).  On this
table the objective-row marker "F" ends up as a column label and the
resulting labels are (["3", "1"], ["F", "2", "S"]) instead of the claimed
swap of `base_var[0]` with `supp_var[1]`, which would give
(["2", "F"], ["1", "3", "S"]).  On non-square tables the transposed
indexing even panics (pivot column index beyond the row-label length). -/
theorem pivot_label_swap_transposed :
    c1T.base_var = ["3", "F"] ∧
    c1T.supp_var = ["1", "2", "S"] ∧
    c1T.find_pivot = .ok (0, 1) ∧
    (c1T.iterate).toOption.map (fun t => (t.base_var, t.supp_var)) =
      some (["3", "1"], ["F", "2", "S"]) ∧
    ((["3", "1"], ["F", "2", "S"]) : List String × List String) ≠
      (["2", "F"], ["1", "3", "S"]) :=
  ⟨by rfl, by rfl,
   by norm_num [c1T, Table.new, Table.find_pivot, Table.find_pivot_column,
     Table.has_positive_in_column, Table.find_pivot_row, Table.relation,
     isSignPositive, matOf, List.range_succ],
   by norm_num [c1T, Table.new, Table.iterate, Table.find_pivot, Table.find_pivot_column,
     Table.has_positive_in_column, Table.find_pivot_row, Table.relation, Table.pivot_step,
     isSignPositive, matOf, List.range_succ, List.range', Except.toOption] ; decide,
   by decide⟩

/-- Modelled from the spec: the positivity confirmation as §4.2 describes
it, over the non-objective (constraint) rows only.  The code's
`has_positive_in_column` scans every row of the column, the objective row
included. -/
def Table.has_positive_in_constraint_rows (t : Table) (j : ℕ) : Bool :=
  ((List.range (t.rows - 1)).find? (fun i => isSignPositive (t.mat i j))).isSome

/-- Tableau state with constraint row [-1, -3] and objective row [2, 0]. -/
def c2T : Table := ⟨2, 2, matOf [[-1, -3], [2, 0]], ["2", "F"], ["1", "S"]⟩

/-- C2 (code bug): at `c2T` the chosen pivot column 0 has no sign-positive
coefficient among the constraint rows, so the claim demands an
`UnlimitedError` before the ratio test; but the code's confirmation loop
`for i in self.table.column(j)` also scans the objective row — whose entry
at `j` is sign-positive by the very choice of `j`, so the confirmation can
never fail — and here `find_pivot` even returns the pivot (0, 0) found by
the ratio test (relation (-3)/(-1) = 3 is sign-positive). -/
theorem find_pivot_positivity_scans_objective_row :
    c2T.find_pivot_column = some 0 ∧
    c2T.has_positive_in_constraint_rows 0 = false ∧
    c2T.has_positive_in_column 0 = true ∧
    c2T.find_pivot = .ok (0, 0) :=
  ⟨by rfl, by rfl, by rfl,
   by norm_num [c2T, Table.find_pivot, Table.find_pivot_column,
     Table.has_positive_in_column, Table.find_pivot_row, Table.relation,
     isSignPositive, matOf, List.range_succ]⟩

/-- C3 (code bug): `Table::new` performs no shape validation and never
produces `InvalidDataError` (the variant is declared but never constructed
anywhere in the source; the constructor's return type is `Table`, not
`Result`).  Concretely: a right-hand-side vector one entry longer than the
constraint-row count is absorbed silently — construction succeeds and the
extra entry 2 becomes the objective row's initial free term; a
right-hand-side vector two entries too long panics on
`push_column(...).unwrap()` (modelled by `none`); an objective vector whose
length mismatches the declared column count is silently dropped by the
discarded `push_row` result, yielding a table whose only row is the
constraint row labelled "F". -/
theorem new_never_invalid_data :
    (Table.new 1 1 (matOf [[1]]) [1, 2] [1] false).map
      (fun t => (t.rows, t.mat 1 1)) = some (2, 2) ∧
    Table.new 1 1 (matOf [[1]]) [1, 2, 3] [1] false = none ∧
    (Table.new 1 2 (matOf [[1, 2]]) [1] [1] false).map
      (fun t => (t.rows, t.base_var)) = some (1, ["F"]) :=
  ⟨by rfl, by rfl, by rfl⟩

/-- Tableau state whose pivot-column-0 constraint entries are [2, -1, 4]
with free terms [10, -5, 8], plus an objective row; this is the spec's
ratio-test example. -/
def c6T : Table :=
  ⟨4, 2, matOf [[2, 10], [-1, -5], [4, 8], [0, 0]], ["3", "4", "5", "F"], ["1", "S"]⟩

/-- Tableau state with a constraint row whose free term is 0 and whose
pivot-column entry is positive. -/
def c6zeroT : Table := ⟨2, 2, matOf [[2, 0], [0, 0]], ["2", "F"], ["1", "S"]⟩

/-- C6 counterexample: in the spec's ratio-test example the row at index 1
is NOT excluded as ineligible — its relation is (-5)/(-1) = 5, whose sign
is positive, so the code's eligibility test accepts it.  The claim's
assertion that the negative coefficient yields a negative ratio is false
(the free term is negative too). -/
theorem ratio_row1_eligible :
    c6T.relation 1 0 = 5 ∧ isSignPositive (c6T.relation 1 0) = true := by
  constructor <;>
    norm_num [c6T, Table.relation, isSignPositive, matOf]

/-- C6 amended: for the column [2, -1, 4] with free terms [10, -5, 8] the
relations are 5, 5 and 2, all three eligible (sign-positive); row 1,
though eligible, is not selected because its relation ties row 0's and the
strict comparison keeps the earlier row; the selected pivot row is index 2
(smallest relation 2).  A row with free term 0 and positive coefficient
yields relation 0, which is eligible and selected. -/
theorem ratio_test_example :
    c6T.relation 0 0 = 5 ∧ c6T.relation 1 0 = 5 ∧ c6T.relation 2 0 = 2 ∧
    isSignPositive (c6T.relation 0 0) = true ∧
    isSignPositive (c6T.relation 1 0) = true ∧
    isSignPositive (c6T.relation 2 0) = true ∧
    c6T.find_pivot_row 0 = some 2 ∧
    c6zeroT.relation 0 0 = 0 ∧
    isSignPositive (c6zeroT.relation 0 0) = true ∧
    c6zeroT.find_pivot_row 0 = some 0 := by
  refine ⟨?_, ?_, ?_, ?_, ?_, ?_, ?_, ?_, ?_, ?_⟩ <;>
    norm_num [c6T, c6zeroT, Table.find_pivot_row, Table.relation, isSignPositive,
      matOf, List.range_succ]

/-- Tableau state with constraint row [0, 5] (pivot-column entry exactly
zero under a positive free term) and objective row [1, 0]. -/
def c10T : Table := ⟨2, 2, matOf [[0, 5], [1, 0]], ["2", "F"], ["1", "S"]⟩

/-- C10: the driver reaches a transform call with pivot value 0 on `c10T`.
Phase 1 finds no negative free term, the phase-2 termination check fails
(objective coefficient 1 is positive), `find_pivot` selects cell (0, 0)
whose value is exactly 0 — the relation 5/0 is accepted as eligible (in
IEEE arithmetic it is +inf, whose sign bit is positive; in this exact
model Lean's division by zero gives 0, likewise sign-positive) — and
`iterate` then unconditionally applies `transform` at that cell:
`transform` itself contains no guard against a zero pivot, violating the
v ≠ 0 precondition of §4.4. -/
theorem ratio_test_selects_zero_pivot :
    c10T.find_in_free_column = none ∧
    c10T.check_optimised = false ∧
    c10T.find_pivot = .ok (0, 0) ∧
    c10T.mat 0 0 = 0 ∧
    c10T.iterate = .ok (c10T.pivot_step 0 0) := by
  refine ⟨by decide, by decide, ?_, by decide, ?_⟩ <;>
    norm_num [c10T, Table.iterate, Table.find_pivot, Table.find_pivot_column,
      Table.has_positive_in_column, Table.find_pivot_row, Table.relation,
      Table.find_in_free_column, Table.check_optimised,
      isSignPositive, isSignNegative, matOf, List.range_succ]

/-! Helper lemmas for the optimality post-condition. -/

theorem phase2_ok_check (fuel : ℕ) :
    ∀ t t' : Table, Table.phase2 fuel t = some (.ok t') → t'.check_optimised = true := by
  induction fuel with
  | zero =>
    intro t t' h
    simp [Table.phase2] at h
  | succ n ih =>
    intro t t' h
    rw [Table.phase2] at h
    by_cases hc : t.check_optimised
    · rw [if_pos hc] at h
      obtain rfl : t = t' := Except.ok.inj (Option.some.inj h)
      exact hc
    · rw [if_neg hc] at h
      cases ht : t.iterate with
      | error e => rw [ht] at h; simp at h
      | ok t2 => rw [ht] at h; exact ih t2 t' h

theorem check_optimised_nonpos {t : Table} (h : t.check_optimised = true) :
    ∀ j, j < t.cols - 1 → t.mat (t.rows - 1) j ≤ 0 := by
  intro j hj
  have hn : (List.range (t.cols - 1)).find?
      (fun j => isSignPositive (t.mat (t.rows - 1) j)) = none := by
    simpa [Table.check_optimised, Option.isNone_iff_eq_none] using h
  have hx := List.find?_eq_none.mp hn j (List.mem_range.mpr hj)
  simp only [isSignPositive, decide_eq_true_eq] at hx
  exact le_of_lt (lt_of_not_le hx)

/-- C4: whenever the driver returns success, every objective-row
coefficient except the free-term cell is non-positive (in fact strictly
negative under the sign-bit model): success is only returned after
`check_optimised` holds, which says exactly that no non-free-term
objective coefficient is sign-positive. -/
theorem optimise_ok_objective_nonpositive (fuel : ℕ) (t t' : Table)
    (h : Table.optimise fuel t = some (.ok t')) :
    ∀ j, j < t'.cols - 1 → t'.mat (t'.rows - 1) j ≤ 0 := by
  have h2 : ∃ t2, Table.phase2 fuel t2 = some (.ok t') := by
    rw [Table.optimise] at h
    cases h1 : Table.phase1 fuel t with
    | none => rw [h1] at h; simp at h
    | some r =>
      cases r with
      | error e => rw [h1] at h; simp at h
      | ok t2 => rw [h1] at h; exact ⟨t2, h⟩
  obtain ⟨t2, h2⟩ := h2
  exact check_optimised_nonpos (phase2_ok_check fuel t2 t' h2)

/-- Already-optimal feasible tableau: constraint row [1, 5], objective row
[-1, 0]; the driver succeeds with no pivot at all. -/
def okT : Table := ⟨2, 2, matOf [[1, 5], [-1, 0]], ["2", "F"], ["1", "S"]⟩

theorem optimise_ok_objective_nonpositive_witness :
    Table.optimise 1 okT = some (.ok okT) ∧ okT.mat (okT.rows - 1) 0 ≤ 0 := by
  have hrun : Table.optimise 1 okT = some (.ok okT) := by
    norm_num [okT, Table.optimise, Table.phase1, Table.phase2,
      Table.find_in_free_column, Table.check_optimised,
      isSignPositive, isSignNegative, matOf, List.range_succ]
  exact ⟨hrun, optimise_ok_objective_nonpositive 1 okT okT hrun 0 (by norm_num [okT])⟩

/-! Helper lemmas for the pivot-column scan. -/

theorem find?_range_mono {p : ℕ → Bool} {a b x : ℕ} (hab : a ≤ b)
    (h : (List.range a).find? p = some x) : (List.range b).find? p = some x := by
  obtain ⟨c, rfl⟩ := Nat.exists_eq_add_of_le hab
  rw [List.range_add, List.find?_append, h, Option.or_some]

theorem pivot_column_before_free_aux (t : Table) (h : t.check_optimised = false) :
    ∃ j, t.find_pivot_column = some j ∧ j < t.cols - 1 := by
  have hsome : ((List.range (t.cols - 1)).find?
      (fun j => isSignPositive (t.mat (t.rows - 1) j))).isSome := by
    rcases hs : ((List.range (t.cols - 1)).find?
        (fun j => isSignPositive (t.mat (t.rows - 1) j))).isSome with _ | _
    · have hco : t.check_optimised = true := Option.not_isSome.mp hs
      rw [h] at hco
      exact Bool.noConfusion hco
    · rfl
  obtain ⟨j, hj⟩ := Option.isSome_iff_exists.mp hsome
  refine ⟨j, find?_range_mono (Nat.sub_le _ _) hj, ?_⟩
  exact List.mem_range.mp (List.mem_of_find?_eq_some hj)

/-- C8 amended: the feared state does not exist.  Whenever the phase-2
termination check has just reported a sign-positive objective coefficient
among the non-free-term columns, the pivot-column scan — although its loop
indeed does not exclude the free-term column — returns the FIRST
sign-positive column of the objective row, and the failed termination
check guarantees such a column exists before the free-term column; the
selected column is therefore always strictly before it. -/
theorem find_pivot_column_spares_free_term (t : Table)
    (h : t.check_optimised = false) :
    ∃ j, t.find_pivot_column = some j ∧ j < t.cols - 1 :=
  pivot_column_before_free_aux t h

theorem find_pivot_column_spares_free_term_witness :
    c2T.check_optimised = false ∧
    ∃ j, c2T.find_pivot_column = some j ∧ j < c2T.cols - 1 :=
  ⟨by decide, find_pivot_column_spares_free_term c2T (by decide)⟩

/-- C8 counterexample (negation of the claimed existence): there is no
tableau state at which the phase-2 termination check has just reported a
positive non-free-term objective coefficient and the pivot-column scan
selects the free-term (last) column. -/
theorem no_free_term_pivot_column :
    ¬ ∃ t : Table, t.check_optimised = false ∧
        t.find_pivot_column = some (t.cols - 1) := by
  rintro ⟨t, hc, hsel⟩
  obtain ⟨j, hj, hlt⟩ := pivot_column_before_free_aux t hc
  rw [hj] at hsel
  exact absurd (Option.some.inj hsel) (Nat.ne_of_lt hlt)

/-- C9 counterexample: constructing from a 1 by 2 constraint matrix, the
first row label is "3" — the declared column count n = 2 plus one (the
label space starts after the appended free-term column, since the source
reads `ncols` AFTER the column push) plus the row index 0 — and not
"2" = n + 0 as the claim states. -/
theorem row_labels_not_n_plus_i :
    (Table.new 1 2 (matOf [[1, 2]]) [1] [1, 1] false).map Table.base_var =
      some ["3", "F"] ∧
    (["3", "F"] : List String) ≠ ["2", "F"] :=
  ⟨by rfl, by decide⟩

/-- C9 amended: for consistent shapes (objective length n, right-hand-side
length m) construction yields column labels "1" .. "n" followed by "S",
and row label i equal to n + 1 + i — the declared column count plus one
plus the row index — followed by "F". -/
theorem construction_labels (m n : ℕ) (A : ℕ → ℕ → ℚ) (b c : List ℚ) (mini : Bool)
    (hc : c.length = n) (hb : b.length = m) :
    (Table.new m n A b c mini).map Table.supp_var =
      some (((List.range' 1 n).map (fun i => toString i)) ++ ["S"]) ∧
    (Table.new m n A b c mini).map Table.base_var =
      some (((List.range m).map (fun i => toString (i + (n + 1)))) ++ ["F"]) := by
  have hlen : (if mini then c.map (fun x => -x) else c).length = n := by
    cases mini <;> simp [hc]
  constructor <;> simp [Table.new, hlen, hb]

theorem construction_labels_witness :
    (Table.new 1 2 (matOf [[1, 2]]) [1] [1, 1] false).map Table.supp_var =
      some ["1", "2", "S"] ∧
    (Table.new 1 2 (matOf [[1, 2]]) [1] [1, 1] false).map Table.base_var =
      some ["3", "F"] := by
  have h := construction_labels 1 2 (matOf [[1, 2]]) [1] [1, 1] false (by rfl) (by rfl)
  refine ⟨?_, ?_⟩
  · rw [h.1]; rfl
  · rw [h.2]; rfl
